import Mathlib

/-!
Verification of the dashboard scene page state managers
(`DashboardScenePageStateManagerBase`, `DashboardScenePageStateManager`,
`UnifiedDashboardScenePageStateManager`), the resource-history read query and
the dashboard app manifest kind registry, as a shallow embedding in Lean.

JavaScript/TypeScript conventions used throughout the embedding:
  - `undefined`/`null` values become `Option`;
  - thrown exceptions become `Except JsError`;
  - `Date.now()` becomes an explicit `now : Nat` supplied by the environment;
  - methods mutating `this.state` become functions from state to state;
  - external collaborators (the dashboard loader service, the backend, the
    scene transformation) are fields of an explicit environment record.
-/

/-- Model of the JavaScript errors thrown and caught by the managers:
`fetchError` models errors satisfying `isFetchError` (carrying `cancelled`,
`status`, `messageId`, `message`); `versionError` models
`DashboardVersionError` (carrying `data.storedVersion`); `simpleError`
models a plain `new Error(message)`. -/
inductive JsError where
  | fetchError (cancelled : Bool) (status : Option Nat) (messageId : Option String) (message : String)
  | versionError (storedVersion : String) (message : String)
  | simpleError (message : String)
deriving DecidableEq, Repr

/-- `isFetchError(e) && e.cancelled` as used by `fetchDashboard`'s catch. -/
def isCancelledFetchError : JsError → Bool
  | .fetchError cancelled _ _ _ => cancelled
  | _ => false

/-- Model of `getStatusFromError` from `app/core/utils/errors`: reads the
status carried by a fetch error, `undefined` otherwise. -/
def getStatusFromError : JsError → Option Nat
  | .fetchError _ status _ _ => status
  | _ => none

/-- Model of `getMessageFromError` from `app/core/utils/errors`. -/
def getMessageFromError : JsError → String
  | .fetchError _ _ _ message => message
  | .versionError _ message => message
  | .simpleError message => message

/-- Model of `getMessageIdFromError` from `app/core/utils/errors`. -/
def getMessageIdFromError : JsError → Option String
  | .fetchError _ _ messageId _ => messageId
  | _ => none

/-- `export interface LoadError` (status?, messageId?, message). -/
structure LoadError where
  status : Option Nat := none
  messageId : Option String := none
  message : String
deriving DecidableEq, Repr

/-- The `DashboardRoutes` values consumed by `fetchDashboard`'s switch. -/
inductive DashboardRoutes where
  | Home
  | New
  | Normal
  | Embedded
  | Public
  | Provisioning
deriving DecidableEq, Repr

/-- `params.timeRange` of `LoadDashboardOptions` (field names `from`/`to`
are Lean keywords, rendered `timeFrom`/`timeTo`). -/
structure TimeRangeParam where
  timeFrom : String
  timeTo : String
deriving DecidableEq, Repr

/-- The `params` member of `LoadDashboardOptions`: version, scopes,
timeRange and variables (a `UrlQueryMap`, modelled as a key/value list). -/
structure LoadParams where
  version : Nat
  scopes : List String
  timeRange : TimeRangeParam
  «variables» : List (String × String)
deriving DecidableEq, Repr

/-- `export interface LoadDashboardOptions`. -/
structure LoadDashboardOptions where
  uid : String
  route : DashboardRoutes
  slug : Option String := none
  type : Option String := none
  urlFolderUid : Option String := none
  params : Option LoadParams := none
deriving DecidableEq, Repr

/-- The part of `DashboardDTO.meta` that `fetchDashboard` reads or writes. -/
structure DashboardMeta where
  url : Option String := none
  folderUid : Option String := none
  canSave : Bool := true
  canShare : Bool := true
  canStar : Bool := true
  isEmbedded : Bool := false
deriving DecidableEq, Repr

/-- The part of `DashboardDTO.dashboard` (a `DashboardDataDTO`) the managers
read: its `version`, its `uid`, and whether `isDashboardV2Spec` holds of it. -/
structure DashboardData where
  uid : String := ""
  version : Nat := 0
  isV2Spec : Bool := false
deriving DecidableEq, Repr

/-- `DashboardDTO`: `dashboard` is `Option` so that the `rsp?.dashboard`
truthiness checks of the source are expressible. -/
structure DashboardDTO where
  dashboard : Option DashboardData := none
  meta : DashboardMeta := {}
deriving DecidableEq, Repr

/-- The part of a `DashboardScene` the managers read: `state.version` and
the save model it was built from (used to distinguish scenes). -/
structure DashboardScene where
  version : Option Nat := none
  sourceModel : DashboardDTO := {}
deriving DecidableEq, Repr

/-- `export const DASHBOARD_CACHE_TTL = 500`. -/
def DASHBOARD_CACHE_TTL : Nat := 500

/-- `export const HOME_DASHBOARD_CACHE_KEY = '__grafana_home_uid__'`. -/
def HOME_DASHBOARD_CACHE_KEY : String := "__grafana_home_uid__"

/-- `interface DashboardCacheEntry<T> { dashboard: T; ts: number; cacheKey: string }`. -/
structure DashboardCacheEntry (T : Type) where
  dashboard : T
  ts : Nat
  cacheKey : String
deriving DecidableEq, Repr

/-- `DashboardScenePageStateManagerBase.getDashboardFromCache`: returns the
single cached entry when its key matches and it is younger than
`DASHBOARD_CACHE_TTL`, `null` otherwise.  (`this.dashboardCache` is passed
explicitly; `Date.now()` is the explicit `now`.) -/
def getDashboardFromCache {T : Type} (dashboardCache : Option (DashboardCacheEntry T))
    (now : Nat) (cacheKey : String) : Option T :=
  match dashboardCache with
  | some cachedDashboard =>
    if cachedDashboard.cacheKey = cacheKey ∧ now - cachedDashboard.ts < DASHBOARD_CACHE_TTL then
      some cachedDashboard.dashboard
    else
      none
  | none => none

/-- `DashboardScenePageStateManagerBase.setDashboardCache`: overwrites
`this.dashboardCache` with a single fresh entry, discarding whatever was
there before. -/
def setDashboardCache {T : Type} (_dashboardCache : Option (DashboardCacheEntry T))
    (now : Nat) (cacheKey : String) (dashboard : T) : Option (DashboardCacheEntry T) :=
  some { dashboard := dashboard, ts := now, cacheKey := cacheKey }

/-- `DashboardScenePageStateManagerBase.clearDashboardCache`. -/
def clearDashboardCache {T : Type} (_dashboardCache : Option (DashboardCacheEntry T)) :
    Option (DashboardCacheEntry T) := none

/-- The materialized-scene cache `protected cache: Record<string, DashboardScene>`,
modelled as an association list where the most recent binding for a key wins. -/
def SceneCache : Type := List (String × DashboardScene)

instance : DecidableEq SceneCache := by
  unfold SceneCache
  infer_instance

instance : Repr SceneCache := by
  unfold SceneCache
  infer_instance

/-- `DashboardScenePageStateManagerBase.getSceneFromCache`. -/
def getSceneFromCache (cache : SceneCache) (cacheKey : String) : Option DashboardScene :=
  (List.find? (fun p => p.1 = cacheKey) cache).map (·.2)

/-- `DashboardScenePageStateManagerBase.setSceneCache` (`this.cache[cacheKey] = scene`). -/
def setSceneCache (cache : SceneCache) (cacheKey : String) (scene : DashboardScene) : SceneCache :=
  (cacheKey, scene) :: cache

/-- `DashboardScenePageStateManagerBase.clearSceneCache`. -/
def clearSceneCache (_cache : SceneCache) : SceneCache := []

/-- JavaScript `x || d` for an optional string (`type || 'db'`, `slug || ''`). -/
def jsOr (x : Option String) (d : String) : String :=
  match x with
  | some s => if s = "" then d else s
  | none => d

/-- The query parameters `fetchDashboard` builds from `params` for the
dashboard loader service. -/
structure QueryParams where
  version : Nat
  scopes : List String
  timeFrom : String
  timeTo : String
  «variables» : List (String × String)
deriving DecidableEq, Repr

/-- The `queryParams` object built in `fetchDashboard`'s default branch. -/
def queryParamsOf (params : Option LoadParams) : Option QueryParams :=
  params.map fun p =>
    { version := p.version, scopes := p.scopes, timeFrom := p.timeRange.timeFrom,
      timeTo := p.timeRange.timeTo, «variables» := p.«variables» }

/-- Response of `GET /api/dashboards/home`: either a redirect
(`isRedirectResponse`) or a dashboard DTO. -/
inductive HomeDashboardResponse where
  | redirect (redirectUri : String)
  | dto (rsp : DashboardDTO)
deriving DecidableEq, Repr

/-- The external collaborators of `DashboardScenePageStateManager`, made
explicit: the clock, `buildNewDashboardSaveModel`, the home-dashboard
backend call, `dashboardLoaderSrv.loadDashboard` / `.loadSnapshot`, and
`transformSaveModelToScene`. -/
structure DashboardEnv where
  now : Nat
  buildNewDashboardSaveModel : Option String → DashboardDTO
  homeDashboard : Except JsError HomeDashboardResponse
  loadDashboardSrv : String → Option String → String → Option QueryParams → Except JsError DashboardDTO
  loadSnapshotSrv : String → Except JsError (Option DashboardDTO)
  transformSaveModelToScene : DashboardDTO → DashboardScene

/-- Outcome of the `switch (route)` block inside `fetchDashboard`'s try:
either an early `return` (Provisioning, Public, home redirect), or a `rsp`
that continues to the URL correction / nav model / cache-write epilogue. -/
inductive SwitchOutcome where
  | earlyReturn (r : Option DashboardDTO)
  | proceed (rsp : DashboardDTO)
deriving DecidableEq, Repr

/-- The `switch (route)` of `DashboardScenePageStateManager.fetchDashboard`,
paired with the number of loader/backend requests it issues. -/
def fetchSwitch (env : DashboardEnv) (o : LoadDashboardOptions) :
    Except JsError SwitchOutcome × Nat :=
  match o.route with
  | .New => (.ok (.proceed (env.buildNewDashboardSaveModel o.urlFolderUid)), 0)
  | .Home =>
    match env.homeDashboard with
    | .error e => (.error e, 1)
    | .ok (.redirect _) => (.ok (.earlyReturn none), 1)
    | .ok (.dto rsp) =>
      if (rsp.dashboard.map (·.isV2Spec)).getD false then
        (.error (.simpleError
          "You are trying to load a v2 dashboard spec as v1. Use DashboardScenePageStateManagerV2 instead."), 1)
      else
        (.ok (.proceed { rsp with
          meta := { rsp.meta with canSave := false, canShare := false, canStar := false } }), 1)
  | .Provisioning =>
    match env.loadDashboardSrv "provisioning" o.slug o.uid none with
    | .error e => (.error e, 1)
    | .ok rsp => (.ok (.earlyReturn (some rsp)), 1)
  | .Public =>
    match env.loadDashboardSrv "public" (some "") o.uid none with
    | .error e => (.error e, 1)
    | .ok rsp => (.ok (.earlyReturn (some rsp)), 1)
  | _ =>
    match env.loadDashboardSrv (jsOr o.type "db") (some (jsOr o.slug "")) o.uid (queryParamsOf o.params) with
    | .error e => (.error e, 1)
    | .ok rsp =>
      if o.route = .Embedded then
        (.ok (.proceed { rsp with meta := { rsp.meta with isEmbedded := true } }), 1)
      else
        (.ok (.proceed rsp), 1)

/-- Result of `fetchDashboard`: its return value (or thrown error), the
raw-response cache after the call, and how many loader/backend requests
were issued. -/
structure FetchDashboardResult where
  result : Except JsError (Option DashboardDTO)
  dashboardCache : Option (DashboardCacheEntry DashboardDTO)
  loaderCalls : Nat
deriving Repr

/-- `DashboardScenePageStateManager.fetchDashboard`.  The URL correction and
nav-model updates are pure side effects on external services and are not
part of the state modelled here. -/
def fetchDashboard (env : DashboardEnv) (dashboardCache : Option (DashboardCacheEntry DashboardDTO))
    (o : LoadDashboardOptions) : FetchDashboardResult :=
  let cacheKey := if o.route = .Home then HOME_DASHBOARD_CACHE_KEY else o.uid
  let cached : Option DashboardDTO :=
    if o.params.isNone then getDashboardFromCache dashboardCache env.now cacheKey else none
  match cached with
  | some cachedDashboard => ⟨.ok (some cachedDashboard), dashboardCache, 0⟩
  | none =>
    match fetchSwitch env o with
    | (.error e, n) =>
      if isCancelledFetchError e then ⟨.ok none, dashboardCache, n⟩
      else ⟨.error e, dashboardCache, n⟩
    | (.ok (.earlyReturn r), n) => ⟨.ok r, dashboardCache, n⟩
    | (.ok (.proceed rsp), n) =>
      ⟨.ok (some rsp), setDashboardCache dashboardCache env.now cacheKey rsp, n⟩

/-- `rsp?.dashboard.version` as an `Option Nat`. -/
def dashboardVersionOf (rsp : Option DashboardDTO) : Option Nat :=
  (rsp.bind (·.dashboard)).map (·.version)

/-- The cache-miss path of `transformResponseToScene`: build the scene from
the save model, writing it into the scene cache only when `options.uid` is
truthy, and throw `Dashboard not found` when `rsp?.dashboard` is falsy. -/
def transformDashboardFresh (env : DashboardEnv) (cache : SceneCache)
    (rsp : Option DashboardDTO) (o : LoadDashboardOptions) :
    Except JsError (Option DashboardScene) × SceneCache :=
  match rsp with
  | some r =>
    match r.dashboard with
    | some _ =>
      let scene := env.transformSaveModelToScene r
      if o.uid = "" then (.ok (some scene), cache)
      else (.ok (some scene), setSceneCache cache o.uid scene)
    | none => (.error (.simpleError "Dashboard not found"), cache)
  | none => (.error (.simpleError "Dashboard not found"), cache)

/-- `DashboardScenePageStateManager.transformResponseToScene`. -/
def transformResponseToScene (env : DashboardEnv) (cache : SceneCache)
    (rsp : Option DashboardDTO) (o : LoadDashboardOptions) :
    Except JsError (Option DashboardScene) × SceneCache :=
  match getSceneFromCache cache o.uid with
  | some fromCache =>
    if fromCache.version = dashboardVersionOf rsp then (.ok (some fromCache), cache)
    else transformDashboardFresh env cache rsp o
  | none => transformDashboardFresh env cache rsp o

/-- `this.state` of the manager (`DashboardScenePageState`), restricted to
the fields the modelled operations read or write. -/
structure DashboardScenePageState where
  dashboard : Option DashboardScene := none
  options : Option LoadDashboardOptions := none
  isLoading : Bool := false
  loadError : Option LoadError := none
deriving DecidableEq, Repr

/-- Full instance state of a `DashboardScenePageStateManager`: the observable
page state plus the two cache tiers held in instance fields. -/
structure ManagerState where
  state : DashboardScenePageState := {}
  cache : SceneCache := []
  dashboardCache : Option (DashboardCacheEntry DashboardDTO) := none
deriving DecidableEq, Repr

/-- `DashboardScenePageStateManagerBase.loadScene`. -/
def loadScene (env : DashboardEnv) (m : ManagerState) (o : LoadDashboardOptions) :
    Except JsError (Option DashboardScene) × ManagerState :=
  let m1 : ManagerState := { m with state := { m.state with dashboard := none, isLoading := true } }
  let fr := fetchDashboard env m1.dashboardCache o
  let m2 : ManagerState := { m1 with dashboardCache := fr.dashboardCache }
  match fr.result with
  | .error e => (.error e, m2)
  | .ok none => (.ok none, m2)
  | .ok (some rsp) =>
    match transformResponseToScene env m2.cache (some rsp) o with
    | (res, cache) => (res, { m2 with cache := cache })

/-- `DashboardScenePageStateManagerBase.loadDashboard`.  The measurement,
local-storage restore and analytics calls are external side effects and are
not part of the state modelled here. -/
def loadDashboard (env : DashboardEnv) (m : ManagerState) (o : LoadDashboardOptions) : ManagerState :=
  match loadScene env m o with
  | (.error e, m1) =>
    { m1 with state := { m1.state with
        isLoading := false
        loadError := some { status := getStatusFromError e
                            messageId := getMessageIdFromError e
                            message := getMessageFromError e } } }
  | (.ok none, m1) => m1
  | (.ok (some dashboard), m1) =>
    { m1 with state := { m1.state with
        dashboard := some dashboard
        isLoading := false
        options := some o } }

/-- `DashboardScenePageStateManager.loadSnapshotScene`. -/
def loadSnapshotScene (env : DashboardEnv) (slug : String) : Except JsError DashboardScene :=
  match env.loadSnapshotSrv slug with
  | .error e => .error e
  | .ok (some r) =>
    match r.dashboard with
    | some _ => .ok (env.transformSaveModelToScene r)
    | none => .error (.simpleError "Snapshot not found")
  | .ok none => .error (.simpleError "Snapshot not found")

/-- `DashboardScenePageStateManagerBase.loadSnapshot`. -/
def loadSnapshot (env : DashboardEnv) (m : ManagerState) (slug : String) : ManagerState :=
  match loadSnapshotScene env slug with
  | .ok dashboard =>
    { m with state := { m.state with dashboard := some dashboard, isLoading := false } }
  | .error e =>
    { m with state := { m.state with
        isLoading := false
        loadError := some { status := getStatusFromError e
                            messageId := getMessageIdFromError e
                            message := getMessageFromError e } } }

/-- The tail of `reloadDashboard` after the scene-cache version check: the
`!rsp?.dashboard` 404 branch, or transform, cache and publish the scene. -/
def reloadDashboardTail (env : DashboardEnv) (m : ManagerState)
    (options : LoadDashboardOptions) (rsp : Option DashboardDTO) : ManagerState :=
  match rsp.bind (·.dashboard) with
  | some _ =>
    let scene := env.transformSaveModelToScene ((rsp.getD {}))
    { m with
      cache := setSceneCache m.cache options.uid scene
      state := { m.state with
        dashboard := some scene
        isLoading := false
        options := some options } }
  | none =>
    { m with state := { m.state with
        isLoading := false
        loadError := some { status := some 404, message := "Dashboard not found" } } }

/-- The body of `reloadDashboard`'s try/catch, applied to the result of the
single `this.fetchDashboard(options)` call.  On error the catch sets a
`loadError` holding only `message` and `status`. -/
def reloadDashboardFetched (env : DashboardEnv) (m : ManagerState)
    (options : LoadDashboardOptions) (fetched : FetchDashboardResult) : ManagerState :=
  let m1 : ManagerState := { m with dashboardCache := fetched.dashboardCache }
  match fetched.result with
  | .error e =>
    { m1 with state := { m1.state with
        isLoading := false
        loadError := some { message := getMessageFromError e, status := getStatusFromError e } } }
  | .ok rsp =>
    match getSceneFromCache m1.cache options.uid with
    | some fromCache =>
      if fromCache.version = dashboardVersionOf rsp then
        { m1 with state := { m1.state with isLoading := false } }
      else
        reloadDashboardTail env m1 options rsp
    | none => reloadDashboardTail env m1 options rsp

/-- Result of `reloadDashboard`, paired with the number of
`this.fetchDashboard` invocations it performed. -/
structure ReloadDashboardResult where
  manager : ManagerState
  fetchDashboardCalls : Nat
deriving Repr

/-- `DashboardScenePageStateManager.reloadDashboard`: proceeds only when the
content-relevant parameters (`variables`, `scopes`) differ by value from the
last load's; `version` and `timeRange` are deliberately not compared. -/
def reloadDashboard (env : DashboardEnv) (m : ManagerState) (params : Option LoadParams) :
    ReloadDashboardResult :=
  match m.state.options with
  | none => ⟨m, 0⟩
  | some stateOptions =>
    let options : LoadDashboardOptions := { stateOptions with params := params }
    if options.params.map (·.«variables») = stateOptions.params.map (·.«variables») ∧
       options.params.map (·.scopes) = stateOptions.params.map (·.scopes) then
      ⟨m, 0⟩
    else
      let m1 : ManagerState := { m with state := { m.state with isLoading := true } }
      ⟨reloadDashboardFetched env m1 options (fetchDashboard env m1.dashboardCache options), 1⟩

/-- The two version-specific managers owned by
`UnifiedDashboardScenePageStateManager` (`v1Manager` / `v2Manager`). -/
inductive ManagerId where
  | v1
  | v2
deriving DecidableEq, Repr

/-- Result of `UnifiedDashboardScenePageStateManager.withVersionHandling`:
the returned value (or propagated error), the `activeManager` field after
the call, and how many times `operation` was invoked. -/
structure WithVersionHandlingResult (T : Type) where
  result : Except JsError T
  activeManager : ManagerId
  operationCalls : Nat
deriving Repr

/-- `UnifiedDashboardScenePageStateManager.withVersionHandling`: run the
operation on the active manager; when it throws a `DashboardVersionError`,
switch `activeManager` to the manager bound to `error.data.storedVersion`
and run the operation once more through it, propagating whatever that
second run yields.  Any other error propagates untouched. -/
def withVersionHandling {T : Type} (op : ManagerId → Except JsError T)
    (activeManager : ManagerId) : WithVersionHandlingResult T :=
  match op activeManager with
  | .ok result => ⟨.ok result, activeManager, 1⟩
  | .error e =>
    match e with
    | .versionError storedVersion _ =>
      let manager := if storedVersion = "v2alpha1" then ManagerId.v2 else ManagerId.v1
      ⟨op manager, manager, 2⟩
    | _ => ⟨.error e, activeManager, 1⟩

/-- A row of the `resource_history` table (the `namespace` column is the
`ns` field, `namespace` being a Lean keyword). -/
structure ResourceHistoryRow where
  guid : String
  resource_version : Nat
  ns : String
  group : String
  resource : String
  name : String
  folder : String
  value : String
deriving DecidableEq, Repr

/-- The `ORDER BY "resource_version" DESC` ordering of the history query. -/
def versionDesc (a b : ResourceHistoryRow) : Prop :=
  b.resource_version ≤ a.resource_version

instance : DecidableRel versionDesc := fun _ _ => Nat.decLe _ _

instance : IsTotal ResourceHistoryRow versionDesc :=
  ⟨fun a b => Nat.le_total b.resource_version a.resource_version⟩

instance : IsTrans ResourceHistoryRow versionDesc :=
  ⟨fun _ _ _ hab hbc => le_trans hbc hab⟩

/-- The `resource_history_get` read-object-history query
(`testdata/postgres--resource_history_get-read object history.sql`): keep the
rows whose `(namespace, group, resource, name)` equal the requested identity
tuple, ordered by `resource_version` descending. -/
def resourceHistoryGet (rows : List ResourceHistoryRow) (ns g r n : String) :
    List ResourceHistoryRow :=
  List.insertionSort versionDesc
    (rows.filter fun row => row.ns == ns && row.group == g && row.resource == r && row.name == n)

/-- The identity of a `resource.Kind` value (`Schema` group/version/kind plus
codec tag), as built by the generated `DashboardKind()` constructors. -/
structure ResourceKind where
  group : String
  version : String
  kind : String
  plural : String
deriving DecidableEq, Repr

/-- `v0alpha1.DashboardKind()`. -/
def dashboardKindV0alpha1 : ResourceKind :=
  { group := "dashboard.grafana.app", version := "v0alpha1", kind := "Dashboard", plural := "dashboards" }

/-- `v1beta1.DashboardKind()`. -/
def dashboardKindV1beta1 : ResourceKind :=
  { group := "dashboard.grafana.app", version := "v1beta1", kind := "Dashboard", plural := "dashboards" }

/-- `v2alpha1.DashboardKind()`. -/
def dashboardKindV2alpha1 : ResourceKind :=
  { group := "dashboard.grafana.app", version := "v2alpha1", kind := "Dashboard", plural := "dashboards" }

/-- `v2alpha2.DashboardKind()`. -/
def dashboardKindV2alpha2 : ResourceKind :=
  { group := "dashboard.grafana.app", version := "v2alpha2", kind := "Dashboard", plural := "dashboards" }

/-- `var kindVersionToGoType = map[string]resource.Kind{...}` from
`dashboard_manifest.go`, as an association list. -/
def kindVersionToGoType : List (String × ResourceKind) :=
  [("Dashboard/v0alpha1", dashboardKindV0alpha1),
   ("Dashboard/v1beta1", dashboardKindV1beta1),
   ("Dashboard/v2alpha1", dashboardKindV2alpha1),
   ("Dashboard/v2alpha2", dashboardKindV2alpha2)]

/-- The Go zero value of `resource.Kind`, returned by a map miss. -/
def zeroResourceKind : ResourceKind :=
  { group := "", version := "", kind := "", plural := "" }

/-- `ManifestGoTypeAssociator(kind, version)`: look up
`fmt.Sprintf("%s/%s", kind, version)` in `kindVersionToGoType` and report
whether the pair is registered. -/
def ManifestGoTypeAssociator (kind version : String) : ResourceKind × Bool :=
  match kindVersionToGoType.lookup (kind ++ "/" ++ version) with
  | some goType => (goType, true)
  | none => (zeroResourceKind, false)

/-- C4: `getDashboardFromCache(k)` returns the stored raw-response entry iff
an entry exists, its `cacheKey` equals `k`, and its age is strictly below
`DASHBOARD_CACHE_TTL`; in every other case it returns `null`.  (The function
is pure: it is defined without any call to the loader environment, so it
never issues a fetch.) -/
theorem getDashboardFromCache_iff {T : Type} (dashboardCache : Option (DashboardCacheEntry T))
    (now : Nat) (cacheKey : String) (d : T) :
    getDashboardFromCache dashboardCache now cacheKey = some d ↔
      ∃ e, dashboardCache = some e ∧ e.cacheKey = cacheKey ∧
        now - e.ts < DASHBOARD_CACHE_TTL ∧ e.dashboard = d := by
  cases dashboardCache with
  | none => simp [getDashboardFromCache]
  | some e =>
    by_cases h1 : e.cacheKey = cacheKey
    · by_cases h2 : now - e.ts < DASHBOARD_CACHE_TTL
      · simp [getDashboardFromCache, h1, h2]
      · simp [getDashboardFromCache, h1, h2]
    · simp [getDashboardFromCache, h1]

/-- C10: the raw-response tier holds a single entry: `setDashboardCache(k, d)`
replaces the whole cache, so afterwards `getDashboardFromCache(k2)` is `null`
for every key `k2 ≠ k`, whatever was cached before. -/
theorem setDashboardCache_evicts_other_keys {T : Type}
    (old : Option (DashboardCacheEntry T)) (now now2 : Nat) (k k2 : String) (d : T)
    (h : k2 ≠ k) :
    getDashboardFromCache (setDashboardCache old now k d) now2 k2 = none := by
  simp [getDashboardFromCache, setDashboardCache, Ne.symm h]

/-- Witness for C10 at concrete values: key `"a"` was cached and unexpired,
yet after `setDashboardCache "b"` a lookup of `"a"` returns `null`. -/
theorem setDashboardCache_evicts_other_keys_witness :
    ("a" : String) ≠ "b" ∧
    getDashboardFromCache (setDashboardCache (some ⟨7, 0, "a"⟩) 0 "b" 7) 0 "a" = none :=
  ⟨by decide,
   setDashboardCache_evicts_other_keys (T := Nat) (some ⟨7, 0, "a"⟩) 0 0 "b" "a" 7 (by decide)⟩

/-- C1: when the first attempt through the active manager fails with a
`DashboardVersionError`, exactly one retry runs, through the manager bound
to the stored version; whatever that retry yields (including a second
version mismatch) is the surfaced result, and no run of
`withVersionHandling` ever invokes the operation more than twice. -/
theorem withVersionHandling_single_fallback {T : Type} (op : ManagerId → Except JsError T)
    (activeManager : ManagerId) (storedVersion msg : String)
    (h : op activeManager = .error (.versionError storedVersion msg)) :
    (withVersionHandling op activeManager).operationCalls = 2 ∧
    (withVersionHandling op activeManager).result =
      op (if storedVersion = "v2alpha1" then ManagerId.v2 else ManagerId.v1) ∧
    ∀ (op2 : ManagerId → Except JsError T) (a2 : ManagerId),
      (withVersionHandling op2 a2).operationCalls ≤ 2 := by
  refine ⟨by simp [withVersionHandling, h], by simp [withVersionHandling, h], ?_⟩
  intro op2 a2
  unfold withVersionHandling
  cases op2 a2 with
  | ok r => simp
  | error e => cases e <;> simp

/-- Operation whose every attempt reports a version mismatch: the first run
(on v1) points at `v2alpha1`, the retry (on v2) points back at `v0alpha1`. -/
def chainedMismatchOp : ManagerId → Except JsError Nat := fun manager =>
  match manager with
  | .v1 => .error (.versionError "v2alpha1" "dashboard version mismatch")
  | .v2 => .error (.versionError "v0alpha1" "dashboard version mismatch")

/-- Witness for C1: a chained mismatch makes exactly two attempts and
surfaces the second `DashboardVersionError` instead of retrying again. -/
theorem withVersionHandling_single_fallback_witness :
    chainedMismatchOp ManagerId.v1 = .error (.versionError "v2alpha1" "dashboard version mismatch") ∧
    ((withVersionHandling chainedMismatchOp ManagerId.v1).operationCalls = 2 ∧
     (withVersionHandling chainedMismatchOp ManagerId.v1).result =
       chainedMismatchOp (if "v2alpha1" = "v2alpha1" then ManagerId.v2 else ManagerId.v1) ∧
     ∀ (op2 : ManagerId → Except JsError Nat) (a2 : ManagerId),
       (withVersionHandling op2 a2).operationCalls ≤ 2) :=
  ⟨rfl, withVersionHandling_single_fallback chainedMismatchOp ManagerId.v1 "v2alpha1"
    "dashboard version mismatch" rfl⟩

/-- Operation that mismatches on v1 and then fails outright on the v2
fallback — used to examine where `activeManager` ends up. -/
def failingFallbackOp : ManagerId → Except JsError Nat := fun manager =>
  match manager with
  | .v1 => .error (.versionError "v2alpha1" "dashboard version mismatch")
  | .v2 => .error (.simpleError "fallback fetch failed")

/-- Counterexample to C2: the fallback attempt fails, yet `activeManager`
has switched to v2 — it is not "unchanged from before the fetch". -/
theorem activeManager_changed_after_failed_fallback :
    (withVersionHandling failingFallbackOp ManagerId.v1).result =
      .error (.simpleError "fallback fetch failed") ∧
    (withVersionHandling failingFallbackOp ManagerId.v1).activeManager = ManagerId.v2 ∧
    ManagerId.v2 ≠ ManagerId.v1 :=
  ⟨rfl, rfl, by decide⟩

/-- C2 as amended: `withVersionHandling` switches `activeManager` to the
manager bound to the stored version as soon as the version mismatch is
caught — before the retry runs — and it stays switched even when the retry
fails; when the first attempt succeeds the active manager is unchanged. -/
theorem withVersionHandling_switches_on_mismatch {T : Type} (op : ManagerId → Except JsError T)
    (activeManager : ManagerId) (storedVersion msg : String)
    (h : op activeManager = .error (.versionError storedVersion msg)) :
    (withVersionHandling op activeManager).activeManager =
      (if storedVersion = "v2alpha1" then ManagerId.v2 else ManagerId.v1) ∧
    ∀ (op2 : ManagerId → Except JsError T) (a2 : ManagerId) (r : T),
      op2 a2 = .ok r → (withVersionHandling op2 a2).activeManager = a2 := by
  refine ⟨by simp [withVersionHandling, h], ?_⟩
  intro op2 a2 r h2
  simp [withVersionHandling, h2]

/-- Witness for the amended C2: with the failing fallback operation the
active manager ends at v2 even though the retry failed. -/
theorem withVersionHandling_switches_on_mismatch_witness :
    ((withVersionHandling failingFallbackOp ManagerId.v1).activeManager =
      (if "v2alpha1" = "v2alpha1" then ManagerId.v2 else ManagerId.v1)) ∧
    ∀ (op2 : ManagerId → Except JsError Nat) (a2 : ManagerId) (r : Nat),
      op2 a2 = .ok r → (withVersionHandling op2 a2).activeManager = a2 :=
  withVersionHandling_switches_on_mismatch failingFallbackOp ManagerId.v1 "v2alpha1"
    "dashboard version mismatch" rfl

/-- C9: resolving a `(kind, version)` pair against the manifest registry is
determined entirely by the immutable `kindVersionToGoType` map: registered
pairs yield their associated `resource.Kind` with `exists = true`, and
unregistered pairs yield `exists = false`.  The registry is a constant and
the associator a pure function of it, so repeated calls agree. -/
theorem manifestGoTypeAssociator_resolution (kind version : String) :
    (∀ goType, kindVersionToGoType.lookup (kind ++ "/" ++ version) = some goType →
      ManifestGoTypeAssociator kind version = (goType, true)) ∧
    (kindVersionToGoType.lookup (kind ++ "/" ++ version) = none →
      ManifestGoTypeAssociator kind version = (zeroResourceKind, false)) := by
  constructor
  · intro goType h
    simp [ManifestGoTypeAssociator, h]
  · intro h
    simp [ManifestGoTypeAssociator, h]

/-- Witness for C9: `Dashboard/v2alpha1` resolves to its registered kind
with `exists = true`; the unregistered `Dashboard/v3` reports
`exists = false`. -/
theorem manifestGoTypeAssociator_resolution_witness :
    ManifestGoTypeAssociator "Dashboard" "v2alpha1" = (dashboardKindV2alpha1, true) ∧
    ManifestGoTypeAssociator "Dashboard" "v3" = (zeroResourceKind, false) :=
  ⟨(manifestGoTypeAssociator_resolution "Dashboard" "v2alpha1").1 dashboardKindV2alpha1 (by decide),
   (manifestGoTypeAssociator_resolution "Dashboard" "v3").2 (by decide)⟩

/-- History rows for identity `(ns="nn", group="gg", resource="rr",
name="name")` written at versions 1, 2, 3 (stored in write order). -/
def sampleHistoryRows : List ResourceHistoryRow :=
  [{ guid := "g1", resource_version := 1, ns := "nn", group := "gg", resource := "rr",
     name := "name", folder := "", value := "payload-1" },
   { guid := "g2", resource_version := 2, ns := "nn", group := "gg", resource := "rr",
     name := "name", folder := "", value := "payload-2" },
   { guid := "g3", resource_version := 3, ns := "nn", group := "gg", resource := "rr",
     name := "name", folder := "", value := "payload-3" }]

/-- C8: the history read query returns exactly the rows matching the full
identity tuple `(namespace, group, resource, name)`, ordered by
`resource_version` descending; in particular versions written as 1, 2, 3
are listed `[3, 2, 1]`. -/
theorem resourceHistoryGet_spec (rows : List ResourceHistoryRow) (ns g r n : String) :
    (∀ row, row ∈ resourceHistoryGet rows ns g r n ↔
      row ∈ rows ∧ row.ns = ns ∧ row.group = g ∧ row.resource = r ∧ row.name = n) ∧
    List.Sorted versionDesc (resourceHistoryGet rows ns g r n) ∧
    (resourceHistoryGet sampleHistoryRows "nn" "gg" "rr" "name").map (·.resource_version)
      = [3, 2, 1] := by
  refine ⟨?_, ?_, by decide⟩
  · intro row
    unfold resourceHistoryGet
    rw [(List.perm_insertionSort versionDesc _).mem_iff, List.mem_filter]
    simp [and_assoc]
  · exact List.sorted_insertionSort versionDesc _

/-- A persisted dashboard DTO used by the concrete scenarios below. -/
def sampleDTO : DashboardDTO :=
  { dashboard := some { uid := "abc", version := 5 }, meta := {} }

/-- A concrete environment: the loader and backend succeed with `sampleDTO`
and the scene transformation records the save model it was given. -/
def sampleEnv : DashboardEnv :=
  { now := 1000
    buildNewDashboardSaveModel := fun _ => { dashboard := some { uid := "", version := 0 } }
    homeDashboard := .ok (.dto sampleDTO)
    loadDashboardSrv := fun _ _ _ _ => .ok sampleDTO
    loadSnapshotSrv := fun _ => .ok (some sampleDTO)
    transformSaveModelToScene := fun d =>
      { version := d.dashboard.map (·.version), sourceModel := d } }

/-- Options of a dashboard reached through the `New` route: a transient,
not-yet-persisted dashboard with no uid. -/
def newDashboardOptions : LoadDashboardOptions := { uid := "", route := .New }

/-- C3 evaluated at the failing input: fetching through the `New` route
writes the freshly built, never-persisted save model into the raw-response
cache (the `setDashboardCache` call in `fetchDashboard` is unconditional,
against the source's own `// Do not cache new dashboards` comment), while
`transformResponseToScene` correctly skips the scene tier for the empty
uid. -/
theorem fetchDashboard_caches_new_dashboard :
    (fetchDashboard sampleEnv none newDashboardOptions).dashboardCache =
      some { dashboard := sampleEnv.buildNewDashboardSaveModel none,
             ts := sampleEnv.now, cacheKey := "" } ∧
    (transformResponseToScene sampleEnv []
      (some (sampleEnv.buildNewDashboardSaveModel none)) newDashboardOptions).2
      = ([] : SceneCache) :=
  ⟨rfl, rfl⟩

/-- C5: given a previous load, `reloadDashboard(params)` performs zero
`fetchDashboard` calls (and leaves the manager untouched) when the new
`variables` and `scopes` equal those of the last load by value — whatever
`version` or `timeRange` say — and performs exactly one `fetchDashboard`
call when they differ. -/
theorem reloadDashboard_fetch_counts (env : DashboardEnv) (m : ManagerState)
    (params : Option LoadParams) (stateOptions : LoadDashboardOptions)
    (h : m.state.options = some stateOptions) :
    ((params.map (·.«variables») = stateOptions.params.map (·.«variables») ∧
      params.map (·.scopes) = stateOptions.params.map (·.scopes)) →
      reloadDashboard env m params = ⟨m, 0⟩) ∧
    (¬(params.map (·.«variables») = stateOptions.params.map (·.«variables») ∧
       params.map (·.scopes) = stateOptions.params.map (·.scopes)) →
      (reloadDashboard env m params).fetchDashboardCalls = 1) := by
  constructor
  · intro hc
    simp [reloadDashboard, h, hc]
  · intro hc
    simp [reloadDashboard, h, hc]

/-- Last-load options: variables `a=1`, scope `s1`, version 1. -/
def reloadStateOptions : LoadDashboardOptions :=
  { uid := "abc", route := .Normal,
    params := some { version := 1, scopes := ["s1"], timeRange := ⟨"now-6h", "now"⟩,
                     «variables» := [("a", "1")] } }

/-- Manager state remembering `reloadStateOptions` as the last load. -/
def reloadState : ManagerState := { state := { options := some reloadStateOptions } }

/-- Same variables and scopes as the last load, different version and time
range — content-irrelevant changes only. -/
def reloadParamsSameContent : Option LoadParams :=
  some { version := 2, scopes := ["s1"], timeRange := ⟨"now-12h", "now"⟩,
         «variables» := [("a", "1")] }

/-- Changed variable binding `a=2` — a content-relevant change. -/
def reloadParamsNewVariables : Option LoadParams :=
  some { version := 1, scopes := ["s1"], timeRange := ⟨"now-6h", "now"⟩,
         «variables» := [("a", "2")] }

/-- Witness for C5: a version/time-range-only change reloads nothing, while
a changed variable binding issues exactly one fetch. -/
theorem reloadDashboard_fetch_counts_witness :
    reloadDashboard sampleEnv reloadState reloadParamsSameContent = ⟨reloadState, 0⟩ ∧
    (reloadDashboard sampleEnv reloadState reloadParamsNewVariables).fetchDashboardCalls = 1 :=
  ⟨(reloadDashboard_fetch_counts sampleEnv reloadState reloadParamsSameContent
      reloadStateOptions rfl).1 (by decide),
   (reloadDashboard_fetch_counts sampleEnv reloadState reloadParamsNewVariables
      reloadStateOptions rfl).2 (by decide)⟩

/-- C6: when the underlying loader request of a `Normal`-route fetch fails
with a cancelled fetch error, `fetchDashboard` returns `null` (leaving the
raw-response cache alone) and `loadDashboard` returns early: the final state
is only the `loadScene` prologue (`dashboard` cleared, `isLoading` still
true) and in particular `loadError` is exactly what it was before — the
cancellation is never surfaced. -/
theorem cancelled_fetch_swallowed (env : DashboardEnv) (m : ManagerState)
    (o : LoadDashboardOptions) (e : JsError)
    (hroute : o.route = .Normal)
    (hcache : getDashboardFromCache m.dashboardCache env.now o.uid = none)
    (hload : env.loadDashboardSrv (jsOr o.type "db") (some (jsOr o.slug "")) o.uid
      (queryParamsOf o.params) = .error e)
    (hcancel : isCancelledFetchError e = true) :
    (fetchDashboard env m.dashboardCache o).result = .ok none ∧
    (fetchDashboard env m.dashboardCache o).dashboardCache = m.dashboardCache ∧
    loadDashboard env m o =
      { m with state := { m.state with dashboard := none, isLoading := true } } ∧
    (loadDashboard env m o).state.loadError = m.state.loadError := by
  have hswitch : fetchSwitch env o = (.error e, 1) := by
    unfold fetchSwitch
    rw [hroute, hload]
  have hfetch : fetchDashboard env m.dashboardCache o = ⟨.ok none, m.dashboardCache, 1⟩ := by
    unfold fetchDashboard
    rw [hroute, hswitch]
    cases hp : o.params with
    | none => simp [hp, hcache, hcancel]
    | some p => simp [hp, hcancel]
  refine ⟨by rw [hfetch], by rw [hfetch], ?_, ?_⟩
  · simp [loadDashboard, loadScene, hfetch]
  · simp [loadDashboard, loadScene, hfetch]

/-- A cancelled fetch error (`isFetchError(e) && e.cancelled`). -/
def cancelledError : JsError := .fetchError true none none "Request was aborted"

/-- Environment whose loader request is superseded and cancelled. -/
def cancelledEnv : DashboardEnv :=
  { sampleEnv with loadDashboardSrv := fun _ _ _ _ => .error cancelledError }

/-- A plain `Normal`-route load. -/
def normalOptions : LoadDashboardOptions := { uid := "abc", route := .Normal }

/-- Witness for C6: with a cancelled loader request, `fetchDashboard`
returns `null` and `loadDashboard` leaves `loadError` untouched. -/
theorem cancelled_fetch_swallowed_witness :
    (fetchDashboard cancelledEnv ({} : ManagerState).dashboardCache normalOptions).result
      = .ok none ∧
    (loadDashboard cancelledEnv {} normalOptions).state.loadError
      = ({} : ManagerState).state.loadError :=
  ⟨(cancelled_fetch_swallowed cancelledEnv {} normalOptions cancelledError rfl rfl rfl rfl).1,
   (cancelled_fetch_swallowed cancelledEnv {} normalOptions cancelledError rfl rfl rfl rfl).2.2.2⟩

/-- A non-recovered loader failure carrying a status code and a
machine-readable message identifier. -/
def reloadFailure : JsError :=
  .fetchError false (some 500) (some "dashboard.load.error") "boom"

/-- Environment whose loader request fails with `reloadFailure`. -/
def reloadFailureEnv : DashboardEnv :=
  { sampleEnv with loadDashboardSrv := fun _ _ _ _ => .error reloadFailure }

/-- Counterexample to C7: a failed `reloadDashboard` stores a `loadError`
whose `messageId` is absent, although the error carried one — the catch in
`reloadDashboard` only copies `message` and `status`. -/
theorem reloadDashboard_loadError_lacks_messageId :
    (reloadDashboard reloadFailureEnv reloadState reloadParamsNewVariables).manager.state.loadError
      = some { status := some 500, messageId := none, message := "boom" } ∧
    getMessageIdFromError reloadFailure = some "dashboard.load.error" :=
  ⟨rfl, rfl⟩

/-- C7 as amended: a non-recovered failure of `loadDashboard` or
`loadSnapshot` sets a `loadError` carrying the status, messageId and message
extracted from the error, while a failed `reloadDashboard` sets a
`loadError` carrying only status and message — its `messageId` is always
absent. -/
theorem loadError_field_population (env : DashboardEnv) (m : ManagerState)
    (o : LoadDashboardOptions) (slug : String) (params : Option LoadParams) (e : JsError) :
    ((loadScene env m o).1 = .error e →
      (loadDashboard env m o).state.loadError =
        some { status := getStatusFromError e, messageId := getMessageIdFromError e,
               message := getMessageFromError e }) ∧
    (loadSnapshotScene env slug = .error e →
      (loadSnapshot env m slug).state.loadError =
        some { status := getStatusFromError e, messageId := getMessageIdFromError e,
               message := getMessageFromError e }) ∧
    (∀ stateOptions, m.state.options = some stateOptions →
      ¬(params.map (·.«variables») = stateOptions.params.map (·.«variables») ∧
        params.map (·.scopes) = stateOptions.params.map (·.scopes)) →
      (fetchDashboard env m.dashboardCache { stateOptions with params := params }).result
        = .error e →
      (reloadDashboard env m params).manager.state.loadError =
        some { status := getStatusFromError e, messageId := none,
               message := getMessageFromError e }) := by
  refine ⟨?_, ?_, ?_⟩
  · intro h
    rcases hls : loadScene env m o with ⟨r, m1⟩
    rw [hls] at h
    simp only at h
    subst h
    simp [loadDashboard, hls]
  · intro h
    simp [loadSnapshot, h]
  · intro stateOptions hso hneq hfetchErr
    simp only [reloadDashboard, hso]
    rw [if_neg hneq]
    simp [reloadDashboardFetched, hfetchErr]

/-- Environment whose snapshot loader fails with `reloadFailure`. -/
def snapshotFailureEnv : DashboardEnv :=
  { sampleEnv with loadSnapshotSrv := fun _ => .error reloadFailure }

/-- Witness for the amended C7: a failing `loadSnapshot` stores all three
`LoadError` fields extracted from the error. -/
theorem loadError_field_population_witness :
    (loadSnapshot snapshotFailureEnv {} "snap").state.loadError =
      some { status := getStatusFromError reloadFailure,
             messageId := getMessageIdFromError reloadFailure,
             message := getMessageFromError reloadFailure } :=
  (loadError_field_population snapshotFailureEnv {} normalOptions "snap" none
    reloadFailure).2.1 rfl
